import Mathlib

/-!
Shallow embedding of the `products` Django/DRF app
(src/products/models.py, serializer.py, views.py, urls.py).

The persistent store is modelled as a list of `Product` records
(the `Product` table).  The acting identity (`request.user`) is an
`Option UserId`: `none` stands for an unauthenticated caller
(`AnonymousUser`), which the `IsAuthenticatedOrReadOnly` permission
class rejects on unsafe methods before the view body runs.

Request bodies carry the deserialized fields: `name` is a required
model field with no default, so a request without it never reaches
the serializer's custom validation (the field layer answers 400
first) and `Attrs` keeps it present; `price` has a model default, so
the serializer lets it be absent; `description` is optional and
nullable.  `is_valid()` is modelled in full as `run_validation`:
DRF's ModelSerializer first runs *field-level* validation —
`name` gets `allow_blank=False`, `max_length=50` and a
`UniqueValidator` that excludes the record under update; `price`, a
`PositiveIntegerField`, maps to `IntegerField(min_value=0,
max_value=2147483647, required=False)` — collecting any failures
into a plain 400 before `ProductSerializer.validate` ever runs.

Two lines of the repository can raise exceptions that Django REST
Framework does not catch (they are not `ValidationError`s):
`owner = self.instance.created_by` raises `AttributeError` when
`self.instance` is `None` (every create whose fields clear the field
layer), and
`price = int(attrs.get('price'))` raises `TypeError` when `price` is
absent.  These surface as unhandled crashes (HTTP 500), modelled as
`Except.error` results, and they never write to the store.
-/

abbrev UserId := Nat

/-- Model `Product` (src/products/models.py).  `price` is an `Int` here
because the serializer converts the proposed value with `int(...)` and
compares it with `< 0`; the `PositiveIntegerField` invariant is proved,
not assumed. -/
structure Product where
  id : Nat
  name : String
  description : Option String
  price : Int
  created_at : Nat
  created_by : UserId
deriving Repr, DecidableEq

/-- The deserialized field data entering `ProductSerializer.validate`.
`description`: outer `none` = key absent, `some d` = key present with
value `d` (which may itself be null).  `price`: `none` = key absent. -/
structure Attrs where
  name : String
  description : Option (Option String)
  price : Option Int
deriving Repr, DecidableEq

/-- The three explicit rejections raised by `ProductSerializer.validate`
as `serializers.ValidationError` (caught by `is_valid`, surfaced as 400). -/
inductive InvalidReason where
  | permissionDenied
  | duplicateName
  | invalidPrice
deriving Repr, DecidableEq

/-- Unhandled Python exceptions escaping `ProductSerializer.validate`. -/
inductive CrashReason where
  | attributeErrorNoneCreatedBy
  | typeErrorIntOfNone
deriving Repr, DecidableEq

inductive GateResult where
  | accepted (attrs : Attrs)
  | invalid (r : InvalidReason)
  | crash (c : CrashReason)
deriving Repr, DecidableEq

/-- Field-level validation failures that `is_valid()` collects in
`to_internal_value`, before the custom `validate` runs: `name` is
checked for blankness (`allow_blank=False`), length (`max_length=50`)
and uniqueness (the auto-added `UniqueValidator`, which excludes the
record under update); `price` is checked against the
`PositiveIntegerField` range mapped to `min_value=0` /
`max_value=2147483647`. -/
inductive FieldError where
  | nameBlank
  | nameTooLong
  | nameNotUnique
  | priceMinValue
  | priceMaxValue
deriving Repr, DecidableEq

/-- Outcome of the full `is_valid()` pipeline: field-level errors (plain
400), or the custom gate's rejection (400) / crash / acceptance. -/
inductive RunResult where
  | accepted (attrs : Attrs)
  | fieldInvalid (errs : List FieldError)
  | invalid (r : InvalidReason)
  | crash (c : CrashReason)
deriving Repr, DecidableEq

def GateResult.toRun : GateResult → RunResult
  | .accepted a => .accepted a
  | .invalid r => .invalid r
  | .crash c => .crash c

namespace ProductSerializer

/-- Embeds `ProductSerializer.validate` (src/products/serializer.py lines 15-33),
with the evaluation order of the Python body: `self.instance.created_by`
first (crashes when there is no instance), then `int(attrs.get('price'))`
(crashes when `price` is absent), then the owner, duplicate-name and
negative-price checks in that order.  The duplicate-name check consults
the whole store (`Product.objects.filter(name=name).exists()`), without
excluding the record under update. -/
def validate (inst : Option Product) (store : List Product)
    (attrs : Attrs) (user : Option UserId) : GateResult :=
  match inst with
  | none => .crash .attributeErrorNoneCreatedBy
  | some prod =>
    match attrs.price with
    | none => .crash .typeErrorIntOfNone
    | some price =>
      if some prod.created_by ≠ user then .invalid .permissionDenied
      else if store.any (fun p => p.name = attrs.name) then .invalid .duplicateName
      else if price < 0 then .invalid .invalidPrice
      else .accepted attrs

/-- Embeds `ProductSerializer.create` (serializer.py lines 36-38) combined with
`Product.objects.create`: binds `created_by` to the context user, lets the
store assign `id` (autoincrement) and `created_at` (`auto_now_add`), and
applies the model defaults for absent optional fields.  (Unreachable in
the running system: `validate` crashes first on every create that
reaches it.) -/
def create (store : List Product) (attrs : Attrs) (user : UserId)
    (now : Nat) : Product :=
  { id := (store.map (fun p => p.id)).foldr max 0 + 1
    name := attrs.name
    description := attrs.description.getD none
    price := attrs.price.getD 0
    created_at := now
    created_by := user }

/-- Upper bound of Django's `PositiveIntegerField` range, which DRF
maps to the serializer field's `max_value`. -/
def int_max : Int := 2147483647

/-- Field-level checks on `name` (`CharField(max_length=50, unique=True)`
with `allow_blank=False`): a blank value fails immediately and skips the
validators; otherwise the `MaxLengthValidator` and the `UniqueValidator`
both run and their failures are collected.  The `UniqueValidator`
excludes the record under update (`inst`). -/
def excludesInst (inst : Option Product) (p : Product) : Bool :=
  match inst with
  | none => true
  | some i => p.id ≠ i.id

def nameErrors (inst : Option Product) (store : List Product)
    (name : String) : List FieldError :=
  if name = "" then [.nameBlank]
  else
    (if 50 < name.length then [.nameTooLong] else []) ++
    (if store.any (fun p => p.name = name && excludesInst inst p) then
      [.nameNotUnique]
    else [])

/-- Field-level checks on `price` (`IntegerField(min_value=0,
max_value=2147483647, required=False)`): nothing when the key is absent
(the model default makes it optional), the range validators otherwise. -/
def priceErrors : Option Int → List FieldError
  | none => []
  | some p =>
    (if p < 0 then [.priceMinValue] else []) ++
    (if int_max < p then [.priceMaxValue] else [])

/-- Field-level validation of the whole body, as `to_internal_value`
collects it (`description` has no constraints). -/
def fieldErrors (inst : Option Product) (store : List Product)
    (attrs : Attrs) : List FieldError :=
  nameErrors inst store attrs.name ++ priceErrors attrs.price

/-- Embeds `serializer.is_valid()`: field-level validation first — any
failure is surfaced as a plain 400 with the collected field errors, and
`validate` never runs — then the custom `ProductSerializer.validate`. -/
def run_validation (inst : Option Product) (store : List Product)
    (attrs : Attrs) (user : Option UserId) : RunResult :=
  if fieldErrors inst store attrs = [] then
    (validate inst store attrs user).toRun
  else .fieldInvalid (fieldErrors inst store attrs)

/-- Embeds `ModelSerializer.update` on the validated data: writes the writable
fields that were provided; `id`, `created_by`, `created_at` are in
`read_only_fields` and never appear in the validated data. -/
def applyUpdate (prod : Product) (attrs : Attrs) : Product :=
  { prod with
    name := attrs.name
    description := attrs.description.getD prod.description
    price := attrs.price.getD prod.price }

end ProductSerializer

namespace Store

/-- Embeds `Product.objects.get(id=product_id)` / generic `get_object`. -/
def getById (store : List Product) (pid : Nat) : Option Product :=
  store.find? (fun p => p.id = pid)

/-- Persisting an updated record: the row with the same `id` is replaced. -/
def saveUpdated (store : List Product) (updated : Product) : List Product :=
  store.map (fun p => if p.id = updated.id then updated else p)

/-- Embeds `product.delete()`: the row disappears from the table. -/
def deleteById (store : List Product) (pid : Nat) : List Product :=
  store.filter (fun p => p.id ≠ pid)

end Store

/-- The response bodies the views produce.  Error payloads are identified
by their kind: `invalid r` is the serializer's `.errors` dict for the
custom gate's rejection `r`, `invalidFields errs` the `.errors` dict of
collected field-level failures; the `detail*` bodies are DRF's standard
exception payloads. -/
inductive Body where
  | record (p : Product)
  | page (results : List Product) (count : Nat) (hasNext : Bool) (hasPrev : Bool)
  | invalid (r : InvalidReason)
  | invalidFields (errs : List FieldError)
  | detailNotFound
  | detailPermissionDenied
  | detailUnauthenticated
  | empty
deriving Repr, DecidableEq

structure Response where
  status : Nat
  body : Body
deriving Repr, DecidableEq

/-- Either an HTTP response or an unhandled exception (HTTP 500). -/
inductive HttpResult where
  | response (r : Response)
  | crash (c : CrashReason)
deriving Repr, DecidableEq

/-- What a view call leaves behind: the HTTP-level result and the store
after the request. -/
structure ViewResult where
  result : HttpResult
  store : List Product
deriving Repr, DecidableEq

namespace ProductsPagination

/-- Value of `ProductsPagination.page_size` (views.py line 27). -/
def page_size : Nat := 10

/-- Value of `ProductsPagination.max_page_size` (views.py line 28). -/
def max_page_size : Nat := 100

/-- Inherited `PageNumberPagination.page_size_query_param`, unchanged:
the subclass never sets it, so it stays `None` and no query parameter
lets the caller choose a page size. -/
def page_size_query_param : Option String := none

/-- Embeds `PageNumberPagination.get_page_size`: consults the page-size query
parameter only when `page_size_query_param` is configured (capping at
`max_page_size`); otherwise the fixed `page_size`.  With the repo's
settings this is constantly 10. -/
def get_page_size (requested : Option Nat) : Nat :=
  match page_size_query_param, requested with
  | some _, some n => if n = 0 then page_size else min n max_page_size
  | _, _ => page_size

/-- Django `Paginator.num_pages`: `ceil(count / per_page)`, at least 1
(an empty first page is allowed). -/
def num_pages (count size : Nat) : Nat :=
  max 1 ((count + size - 1) / size)

/-- Embeds `paginate_queryset` followed by `get_paginated_response`: slice the
requested page out of the record list; `none` is the `NotFound` raised
for an invalid page number.  The payload carries the results, the total
count, and next/previous page indicators. -/
def paginate (items : List Product) (page : Nat)
    (requestedSize : Option Nat) : Option Body :=
  let size := get_page_size requestedSize
  let count := items.length
  let pages := num_pages count size
  if page = 0 ∨ pages < page then none
  else some (.page ((items.drop ((page - 1) * size)).take size) count
    (decide (page < pages)) (decide (1 < page)))

end ProductsPagination

/-- A request on the item route: `GET`, `PUT` (with a body), `DELETE`. -/
inductive DetailMethod where
  | get
  | put (attrs : Attrs)
  | delete
deriving Repr, DecidableEq

/-- Embeds `IsAuthenticatedOrReadOnly`: safe methods are open, the rest need an
authenticated caller. -/
def DetailMethod.requiresAuth : DetailMethod → Bool
  | .get => false
  | .put _ => true
  | .delete => true

/-- A request on the collection route: `GET` (with page number and the
ignored page-size parameter), `POST` (with a body). -/
inductive CollectionMethod where
  | list (page : Nat) (requestedSize : Option Nat)
  | post (attrs : Attrs)
deriving Repr, DecidableEq

def CollectionMethod.requiresAuth : CollectionMethod → Bool
  | .list _ _ => false
  | .post _ => true

/-- Embeds `fbv_product_detail` (views.py lines 63-92): permissions first, then
the id lookup (404), then per-verb handling.  `PUT` runs the serializer
gate and answers 202 on success, 400 on a `ValidationError`; `DELETE`
checks ownership itself and answers 403 / 204. -/
def fbv_product_detail (store : List Product) (user : Option UserId)
    (method : DetailMethod) (product_id : Nat) : ViewResult :=
  if method.requiresAuth ∧ user = none then
    ⟨.response ⟨401, .detailUnauthenticated⟩, store⟩
  else
    match Store.getById store product_id with
    | none => ⟨.response ⟨404, .detailNotFound⟩, store⟩
    | some product =>
      match method with
      | .get => ⟨.response ⟨200, .record product⟩, store⟩
      | .put attrs =>
        match ProductSerializer.run_validation (some product) store attrs user with
        | .accepted a =>
          let updated := ProductSerializer.applyUpdate product a
          ⟨.response ⟨202, .record updated⟩, Store.saveUpdated store updated⟩
        | .fieldInvalid errs => ⟨.response ⟨400, .invalidFields errs⟩, store⟩
        | .invalid r => ⟨.response ⟨400, .invalid r⟩, store⟩
        | .crash c => ⟨.crash c, store⟩
      | .delete =>
        if some product.created_by ≠ user then
          ⟨.response ⟨403, .detailPermissionDenied⟩, store⟩
        else
          ⟨.response ⟨204, .empty⟩, Store.deleteById store product.id⟩

/-- Embeds `ProductDetailAPIView` (views.py lines 121-150): same permission
class, same `get_product` 404 helper, and verb handlers with the same
bodies and statuses as the function-based view. -/
def ProductDetailAPIView.handle (store : List Product) (user : Option UserId)
    (method : DetailMethod) (product_id : Nat) : ViewResult :=
  if method.requiresAuth ∧ user = none then
    ⟨.response ⟨401, .detailUnauthenticated⟩, store⟩
  else
    match Store.getById store product_id with
    | none => ⟨.response ⟨404, .detailNotFound⟩, store⟩
    | some product =>
      match method with
      | .get => ⟨.response ⟨200, .record product⟩, store⟩
      | .put attrs =>
        match ProductSerializer.run_validation (some product) store attrs user with
        | .accepted a =>
          let updated := ProductSerializer.applyUpdate product a
          ⟨.response ⟨202, .record updated⟩, Store.saveUpdated store updated⟩
        | .fieldInvalid errs => ⟨.response ⟨400, .invalidFields errs⟩, store⟩
        | .invalid r => ⟨.response ⟨400, .invalid r⟩, store⟩
        | .crash c => ⟨.crash c, store⟩
      | .delete =>
        if some product.created_by ≠ user then
          ⟨.response ⟨403, .detailPermissionDenied⟩, store⟩
        else
          ⟨.response ⟨204, .empty⟩, Store.deleteById store product.id⟩

/-- Embeds `ProductDetailMixinView` (views.py lines 183-207): `retrieve` and the
owner-checked `destroy` behave as in the other styles, but `put` goes
through `UpdateModelMixin.update`, which returns `Response(serializer.data)`
with the default status 200 (not the 202 the first two styles hard-code);
a `ValidationError` is raised (`raise_exception=True`) and rendered as the
same 400 by the DRF exception handler. -/
def ProductDetailMixinView.handle (store : List Product) (user : Option UserId)
    (method : DetailMethod) (product_id : Nat) : ViewResult :=
  if method.requiresAuth ∧ user = none then
    ⟨.response ⟨401, .detailUnauthenticated⟩, store⟩
  else
    match Store.getById store product_id with
    | none => ⟨.response ⟨404, .detailNotFound⟩, store⟩
    | some product =>
      match method with
      | .get => ⟨.response ⟨200, .record product⟩, store⟩
      | .put attrs =>
        match ProductSerializer.run_validation (some product) store attrs user with
        | .accepted a =>
          let updated := ProductSerializer.applyUpdate product a
          ⟨.response ⟨200, .record updated⟩, Store.saveUpdated store updated⟩
        | .fieldInvalid errs => ⟨.response ⟨400, .invalidFields errs⟩, store⟩
        | .invalid r => ⟨.response ⟨400, .invalid r⟩, store⟩
        | .crash c => ⟨.crash c, store⟩
      | .delete =>
        if some product.created_by ≠ user then
          ⟨.response ⟨403, .detailPermissionDenied⟩, store⟩
        else
          ⟨.response ⟨204, .empty⟩, Store.deleteById store product.id⟩

/-- Embeds `ProductDetailGenericView` (views.py lines 230-247):
`RetrieveUpdateDestroyAPIView` with an owner check prepended to
`destroy`.  `PUT` is `UpdateModelMixin.update` again, so success is 200
as in the mixin view. -/
def ProductDetailGenericView.handle (store : List Product) (user : Option UserId)
    (method : DetailMethod) (product_id : Nat) : ViewResult :=
  if method.requiresAuth ∧ user = none then
    ⟨.response ⟨401, .detailUnauthenticated⟩, store⟩
  else
    match Store.getById store product_id with
    | none => ⟨.response ⟨404, .detailNotFound⟩, store⟩
    | some product =>
      match method with
      | .get => ⟨.response ⟨200, .record product⟩, store⟩
      | .put attrs =>
        match ProductSerializer.run_validation (some product) store attrs user with
        | .accepted a =>
          let updated := ProductSerializer.applyUpdate product a
          ⟨.response ⟨200, .record updated⟩, Store.saveUpdated store updated⟩
        | .fieldInvalid errs => ⟨.response ⟨400, .invalidFields errs⟩, store⟩
        | .invalid r => ⟨.response ⟨400, .invalid r⟩, store⟩
        | .crash c => ⟨.crash c, store⟩
      | .delete =>
        if some product.created_by ≠ user then
          ⟨.response ⟨403, .detailPermissionDenied⟩, store⟩
        else
          ⟨.response ⟨204, .empty⟩, Store.deleteById store product.id⟩

/-- Embeds `fbv_products` (views.py lines 37-57): `GET` paginates the full table
(open to all callers); `POST` needs authentication and runs the
serializer; on success it would answer 201 with the created record, on a
`ValidationError` 400.  (The gate's `AttributeError` on a `None`
instance makes every field-valid authenticated `POST` crash in
practice; field-invalid ones get the field-error 400.) -/
def fbv_products (store : List Product) (user : Option UserId)
    (method : CollectionMethod) (now : Nat) : ViewResult :=
  if method.requiresAuth ∧ user = none then
    ⟨.response ⟨401, .detailUnauthenticated⟩, store⟩
  else
    match method with
    | .list page requestedSize =>
      match ProductsPagination.paginate store page requestedSize with
      | none => ⟨.response ⟨404, .detailNotFound⟩, store⟩
      | some body => ⟨.response ⟨200, body⟩, store⟩
    | .post attrs =>
      match ProductSerializer.run_validation none store attrs user with
      | .accepted a =>
        let newProd := ProductSerializer.create store a (user.getD 0) now
        ⟨.response ⟨201, .record newProd⟩, store ++ [newProd]⟩
      | .fieldInvalid errs => ⟨.response ⟨400, .invalidFields errs⟩, store⟩
      | .invalid r => ⟨.response ⟨400, .invalid r⟩, store⟩
      | .crash c => ⟨.crash c, store⟩

/-- Embeds `ProductsAPIView` (views.py lines 99-115): same `get`/`post` bodies
as the function-based collection view. -/
def ProductsAPIView.handle (store : List Product) (user : Option UserId)
    (method : CollectionMethod) (now : Nat) : ViewResult :=
  if method.requiresAuth ∧ user = none then
    ⟨.response ⟨401, .detailUnauthenticated⟩, store⟩
  else
    match method with
    | .list page requestedSize =>
      match ProductsPagination.paginate store page requestedSize with
      | none => ⟨.response ⟨404, .detailNotFound⟩, store⟩
      | some body => ⟨.response ⟨200, body⟩, store⟩
    | .post attrs =>
      match ProductSerializer.run_validation none store attrs user with
      | .accepted a =>
        let newProd := ProductSerializer.create store a (user.getD 0) now
        ⟨.response ⟨201, .record newProd⟩, store ++ [newProd]⟩
      | .fieldInvalid errs => ⟨.response ⟨400, .invalidFields errs⟩, store⟩
      | .invalid r => ⟨.response ⟨400, .invalid r⟩, store⟩
      | .crash c => ⟨.crash c, store⟩

/-- Embeds `ProductsMixinView` (views.py lines 157-177): `ListModelMixin.list`
with the same paginator, `CreateModelMixin.create` with the same
serializer and context; statuses and payloads match the first two
styles (creation answers 201, list 200). -/
def ProductsMixinView.handle (store : List Product) (user : Option UserId)
    (method : CollectionMethod) (now : Nat) : ViewResult :=
  if method.requiresAuth ∧ user = none then
    ⟨.response ⟨401, .detailUnauthenticated⟩, store⟩
  else
    match method with
    | .list page requestedSize =>
      match ProductsPagination.paginate store page requestedSize with
      | none => ⟨.response ⟨404, .detailNotFound⟩, store⟩
      | some body => ⟨.response ⟨200, body⟩, store⟩
    | .post attrs =>
      match ProductSerializer.run_validation none store attrs user with
      | .accepted a =>
        let newProd := ProductSerializer.create store a (user.getD 0) now
        ⟨.response ⟨201, .record newProd⟩, store ++ [newProd]⟩
      | .fieldInvalid errs => ⟨.response ⟨400, .invalidFields errs⟩, store⟩
      | .invalid r => ⟨.response ⟨400, .invalid r⟩, store⟩
      | .crash c => ⟨.crash c, store⟩

/-- Embeds `ProductsGenericView` (views.py lines 214-224): `ListCreateAPIView`,
behaviourally the same `list`/`create` pair as the mixin view. -/
def ProductsGenericView.handle (store : List Product) (user : Option UserId)
    (method : CollectionMethod) (now : Nat) : ViewResult :=
  if method.requiresAuth ∧ user = none then
    ⟨.response ⟨401, .detailUnauthenticated⟩, store⟩
  else
    match method with
    | .list page requestedSize =>
      match ProductsPagination.paginate store page requestedSize with
      | none => ⟨.response ⟨404, .detailNotFound⟩, store⟩
      | some body => ⟨.response ⟨200, body⟩, store⟩
    | .post attrs =>
      match ProductSerializer.run_validation none store attrs user with
      | .accepted a =>
        let newProd := ProductSerializer.create store a (user.getD 0) now
        ⟨.response ⟨201, .record newProd⟩, store ++ [newProd]⟩
      | .fieldInvalid errs => ⟨.response ⟨400, .invalidFields errs⟩, store⟩
      | .invalid r => ⟨.response ⟨400, .invalid r⟩, store⟩
      | .crash c => ⟨.crash c, store⟩

/-- Status of an HTTP-level result (`none` for an unhandled crash). -/
def HttpResult.status? : HttpResult → Option Nat
  | .response r => some r.status
  | .crash _ => none

/-- Body of an HTTP-level result (`none` for an unhandled crash). -/
def HttpResult.body? : HttpResult → Option Body
  | .response r => some r.body
  | .crash _ => none

/-- Fixture: a product created by user 7. -/
def prodChair : Product := ⟨1, "Chair", none, 50, 3, 7⟩

/-- Fixture: a store of 15 products (for the pagination scenario). -/
def store15 : List Product :=
  (List.range 15).map (fun i => ⟨i + 1, "P" ++ toString i, none, 1, 0, 7⟩)

/-- Fixture: a fresh name and a non-negative price. -/
def attrsTable : Attrs := ⟨"Table", none, some 60⟩

/-- Fixture: a fresh name, price key absent. -/
def attrsTableNoPrice : Attrs := ⟨"Table", none, none⟩

/-- Fixture: valid creation fields. -/
def attrsChair : Attrs := ⟨"Chair", none, some 50⟩

/-- Fixture: record's own current name, fresh non-negative price. -/
def attrsChairKeepName : Attrs := ⟨"Chair", none, some 60⟩

/-- Fixture: a negative price. -/
def attrsNegPrice : Attrs := ⟨"Sofa", none, some (-5)⟩

/-- The one behavioural difference between the view styles on the item
route: `UpdateModelMixin.update` answers a successful `PUT` with the
default status 200 where the hand-written views answer 202.  `demoteAccepted`
maps a 202 response to the same response with status 200 and leaves
every other outcome untouched. -/
def demoteAccepted (v : ViewResult) : ViewResult :=
  match v with
  | ⟨.response r, s⟩ => ⟨.response (if r.status = 202 then ⟨200, r.body⟩ else r), s⟩
  | other => other

theorem mem_of_getById {store : List Product} {pid : Nat} {p : Product}
    (h : Store.getById store pid = some p) : p ∈ store :=
  List.mem_of_find?_eq_some h

theorem any_name_of_mem {store : List Product} {p : Product} {n : String}
    (hmem : p ∈ store) (hname : p.name = n) :
    store.any (fun q => q.name = n) = true := by
  rw [List.any_eq_true]
  exact ⟨p, hmem, by simp [hname]⟩

theorem validate_some_noprice (prod : Product) (store : List Product)
    (attrs : Attrs) (user : Option UserId) (hp : attrs.price = none) :
    ProductSerializer.validate (some prod) store attrs user =
      .crash .typeErrorIntOfNone := by
  unfold ProductSerializer.validate
  rw [hp]

theorem validate_some_some (prod : Product) (store : List Product)
    (attrs : Attrs) (user : Option UserId) (p : Int)
    (hp : attrs.price = some p) :
    ProductSerializer.validate (some prod) store attrs user =
      if some prod.created_by ≠ user then .invalid .permissionDenied
      else if store.any (fun q => q.name = attrs.name) then .invalid .duplicateName
      else if p < 0 then .invalid .invalidPrice
      else .accepted attrs := by
  unfold ProductSerializer.validate
  rw [hp]

theorem validate_accepted_inv {inst : Option Product} {store : List Product}
    {attrs : Attrs} {user : Option UserId} {a : Attrs}
    (h : ProductSerializer.validate inst store attrs user = .accepted a) :
    a = attrs ∧ ∃ p, attrs.price = some p ∧ 0 ≤ p := by
  cases inst with
  | none => exact absurd h (by simp [ProductSerializer.validate])
  | some prod =>
    cases hp : attrs.price with
    | none =>
      rw [validate_some_noprice prod store attrs user hp] at h
      exact absurd h (by simp)
    | some p =>
      rw [validate_some_some prod store attrs user p hp] at h
      split at h
      · exact absurd h (by simp)
      · split at h
        · exact absurd h (by simp)
        · split at h
          · exact absurd h (by simp)
          · next hnn =>
            injection h with ha
            exact ⟨ha.symm, p, rfl, not_lt.mp hnn⟩

theorem validate_accepted_owner {prod : Product} {store : List Product}
    {attrs : Attrs} {user : Option UserId} {a : Attrs}
    (h : ProductSerializer.validate (some prod) store attrs user = .accepted a) :
    some prod.created_by = user := by
  cases hp : attrs.price with
  | none =>
    rw [validate_some_noprice prod store attrs user hp] at h
    exact absurd h (by simp)
  | some p =>
    rw [validate_some_some prod store attrs user p hp] at h
    split at h
    · exact absurd h (by simp)
    · next hnn => exact not_ne_iff.mp hnn

theorem validate_some_crash_inv {prod : Product} {store : List Product}
    {attrs : Attrs} {user : Option UserId} {c : CrashReason}
    (h : ProductSerializer.validate (some prod) store attrs user = .crash c) :
    attrs.price = none := by
  cases hp : attrs.price with
  | none => rfl
  | some p =>
    rw [validate_some_some prod store attrs user p hp] at h
    split at h
    · exact absurd h (by simp)
    · split at h
      · exact absurd h (by simp)
      · split at h
        · exact absurd h (by simp)
        · exact absurd h (by simp)

theorem priceMinValue_mem (inst : Option Product) (store : List Product)
    {attrs : Attrs} {p : Int} (hp : attrs.price = some p) (hneg : p < 0) :
    FieldError.priceMinValue ∈ ProductSerializer.fieldErrors inst store attrs := by
  simp [ProductSerializer.fieldErrors, ProductSerializer.priceErrors, hp, hneg]

theorem fieldErrors_nil_price {inst : Option Product} {store : List Product}
    {attrs : Attrs} {p : Int}
    (h : ProductSerializer.fieldErrors inst store attrs = [])
    (hp : attrs.price = some p) : 0 ≤ p := by
  by_contra hneg
  push_neg at hneg
  have hmem := priceMinValue_mem inst store hp hneg
  rw [h] at hmem
  exact absurd hmem (List.not_mem_nil _)

theorem run_validation_nil {inst : Option Product} {store : List Product}
    {attrs : Attrs} {user : Option UserId}
    (h : ProductSerializer.fieldErrors inst store attrs = []) :
    ProductSerializer.run_validation inst store attrs user =
      (ProductSerializer.validate inst store attrs user).toRun := by
  unfold ProductSerializer.run_validation
  rw [if_pos h]

theorem run_validation_err {inst : Option Product} {store : List Product}
    {attrs : Attrs} (user : Option UserId)
    (h : ProductSerializer.fieldErrors inst store attrs ≠ []) :
    ProductSerializer.run_validation inst store attrs user =
      .fieldInvalid (ProductSerializer.fieldErrors inst store attrs) := by
  unfold ProductSerializer.run_validation
  rw [if_neg h]

theorem run_accepted_inv {inst : Option Product} {store : List Product}
    {attrs : Attrs} {user : Option UserId} {a : Attrs}
    (h : ProductSerializer.run_validation inst store attrs user = .accepted a) :
    ProductSerializer.fieldErrors inst store attrs = [] ∧
    ProductSerializer.validate inst store attrs user = .accepted a := by
  by_cases hf : ProductSerializer.fieldErrors inst store attrs = []
  · refine ⟨hf, ?_⟩
    rw [run_validation_nil hf] at h
    cases hv : ProductSerializer.validate inst store attrs user with
    | accepted b =>
      rw [hv] at h
      injection h with hb
      rw [hb]
    | invalid r =>
      rw [hv] at h
      exact absurd h (by simp [GateResult.toRun])
    | crash c =>
      rw [hv] at h
      exact absurd h (by simp [GateResult.toRun])
  · rw [run_validation_err user hf] at h
    exact absurd h (by simp)

theorem fbv_put_eq_match (store : List Product) (u : UserId) (attrs : Attrs)
    (pid : Nat) (product : Product)
    (hfind : Store.getById store pid = some product) :
    fbv_product_detail store (some u) (.put attrs) pid =
      match ProductSerializer.run_validation (some product) store attrs (some u) with
      | .accepted a =>
        ⟨.response ⟨202, .record (ProductSerializer.applyUpdate product a)⟩,
          Store.saveUpdated store (ProductSerializer.applyUpdate product a)⟩
      | .fieldInvalid errs => ⟨.response ⟨400, .invalidFields errs⟩, store⟩
      | .invalid r => ⟨.response ⟨400, .invalid r⟩, store⟩
      | .crash c => ⟨.crash c, store⟩ := by
  unfold fbv_product_detail
  simp [DetailMethod.requiresAuth, hfind]

theorem mixin_put_eq_match (store : List Product) (u : UserId) (attrs : Attrs)
    (pid : Nat) (product : Product)
    (hfind : Store.getById store pid = some product) :
    ProductDetailMixinView.handle store (some u) (.put attrs) pid =
      match ProductSerializer.run_validation (some product) store attrs (some u) with
      | .accepted a =>
        ⟨.response ⟨200, .record (ProductSerializer.applyUpdate product a)⟩,
          Store.saveUpdated store (ProductSerializer.applyUpdate product a)⟩
      | .fieldInvalid errs => ⟨.response ⟨400, .invalidFields errs⟩, store⟩
      | .invalid r => ⟨.response ⟨400, .invalid r⟩, store⟩
      | .crash c => ⟨.crash c, store⟩ := by
  unfold ProductDetailMixinView.handle
  simp [DetailMethod.requiresAuth, hfind]

theorem fbv_put_unauth_eq (store : List Product) (attrs : Attrs) (pid : Nat) :
    fbv_product_detail store none (.put attrs) pid =
      ⟨.response ⟨401, .detailUnauthenticated⟩, store⟩ := by
  unfold fbv_product_detail
  simp [DetailMethod.requiresAuth]

theorem fbv_delete_unauth_eq (store : List Product) (pid : Nat) :
    fbv_product_detail store none .delete pid =
      ⟨.response ⟨401, .detailUnauthenticated⟩, store⟩ := by
  unfold fbv_product_detail
  simp [DetailMethod.requiresAuth]

theorem fbv_notfound_eq (store : List Product) (u : UserId) (m : DetailMethod)
    (pid : Nat) (hfind : Store.getById store pid = none) :
    fbv_product_detail store (some u) m pid =
      ⟨.response ⟨404, .detailNotFound⟩, store⟩ := by
  unfold fbv_product_detail
  simp [hfind]

theorem fbv_get_eq (store : List Product) (u : Option UserId) (pid : Nat)
    (product : Product) (hfind : Store.getById store pid = some product) :
    fbv_product_detail store u .get pid =
      ⟨.response ⟨200, .record product⟩, store⟩ := by
  unfold fbv_product_detail
  simp [DetailMethod.requiresAuth, hfind]

theorem fbv_delete_eq_ite (store : List Product) (u : UserId) (pid : Nat)
    (product : Product) (hfind : Store.getById store pid = some product) :
    fbv_product_detail store (some u) .delete pid =
      if some product.created_by ≠ some u then
        ⟨.response ⟨403, .detailPermissionDenied⟩, store⟩
      else ⟨.response ⟨204, .empty⟩, Store.deleteById store product.id⟩ := by
  unfold fbv_product_detail
  simp [DetailMethod.requiresAuth, hfind]

theorem fbv_put_store_cases (store : List Product) (user : Option UserId)
    (pid : Nat) (attrs : Attrs) :
    (fbv_product_detail store user (.put attrs) pid).store = store ∨
    ∃ product p, Store.getById store pid = some product ∧
      attrs.price = some p ∧ 0 ≤ p ∧ some product.created_by = user ∧
      (fbv_product_detail store user (.put attrs) pid).store =
        Store.saveUpdated store (ProductSerializer.applyUpdate product attrs) := by
  cases user with
  | none => left; rw [fbv_put_unauth_eq]
  | some u =>
    cases hfind : Store.getById store pid with
    | none => left; rw [fbv_notfound_eq store u _ pid hfind]
    | some product =>
      rw [fbv_put_eq_match store u attrs pid product hfind]
      cases hv : ProductSerializer.run_validation (some product) store attrs (some u) with
      | accepted a =>
        obtain ⟨hnil, hva⟩ := run_accepted_inv hv
        obtain ⟨rfl, p, hp, hge⟩ := validate_accepted_inv hva
        right
        exact ⟨product, p, rfl, hp, hge, validate_accepted_owner hva, rfl⟩
      | fieldInvalid errs => left; rfl
      | invalid r => left; rfl
      | crash c => left; rfl

theorem nonowner_put_eq {store : List Product} {pid : Nat} {product : Product}
    {u : UserId} {attrs : Attrs} {p : Int}
    (hfind : Store.getById store pid = some product)
    (hu : u ≠ product.created_by)
    (hferr : ProductSerializer.fieldErrors (some product) store attrs = [])
    (hprice : attrs.price = some p) :
    fbv_product_detail store (some u) (.put attrs) pid =
      ⟨.response ⟨400, .invalid .permissionDenied⟩, store⟩ := by
  have hne : some product.created_by ≠ some u := by
    simpa using Ne.symm hu
  rw [fbv_put_eq_match store u attrs pid product hfind, run_validation_nil hferr,
    validate_some_some product store attrs (some u) p hprice, if_pos hne]
  rfl

theorem nonowner_delete_eq {store : List Product} {pid : Nat} {product : Product}
    {u : UserId}
    (hfind : Store.getById store pid = some product)
    (hu : u ≠ product.created_by) :
    fbv_product_detail store (some u) .delete pid =
      ⟨.response ⟨403, .detailPermissionDenied⟩, store⟩ := by
  have hne : some product.created_by ≠ some u := by
    simpa using Ne.symm hu
  unfold fbv_product_detail
  simp [DetailMethod.requiresAuth, hfind, hne]

/-- C1: a create request by an authenticated identity with fields that
should pass validation (fresh name, non-negative price) does not succeed
with 201: `ProductSerializer.validate` reads `self.instance.created_by`
while `self.instance` is `None`, so every create crashes with an
unhandled `AttributeError` and nothing is persisted. -/
theorem C1_valid_create_crashes :
    fbv_products [] (some 1) (.post attrsChair) 0 =
      ⟨.crash .attributeErrorNoneCreatedBy, []⟩ := by decide

/-- C2 counterexample: a non-owner `PUT` whose body omits `price` is not
rejected with `PermissionDenied`; `int(attrs.get('price'))` crashes
first with an unhandled `TypeError` (the store is still unchanged). -/
theorem C2_counterexample :
    fbv_product_detail [prodChair] (some 8) (.put attrsTableNoPrice) 1 =
      ⟨.crash .typeErrorIntOfNone, [prodChair]⟩ ∧
    (fbv_product_detail [prodChair] (some 8) (.put attrsTableNoPrice) 1).result ≠
      .response ⟨400, .invalid .permissionDenied⟩ ∧
    (fbv_product_detail [prodChair] (some 8) (.put attrsTableNoPrice) 1).result ≠
      .response ⟨403, .detailPermissionDenied⟩ := by decide

/-- C2 (amended): for every stored record, a non-owner `DELETE` is
rejected with `PermissionDenied`; a non-owner `PUT` whose proposed
fields pass the serializer's field-level validation and include a price
is rejected with `PermissionDenied`; and no non-owner `PUT` of any kind
ever mutates the store.  (A field-invalid non-owner `PUT` gets a
field-error 400 instead, and a field-valid one omitting the price
crashes before the ownership check; the store is unchanged in every
case.) -/
theorem C2_nonowner_mutation_rejected (store : List Product) (pid : Nat)
    (product : Product) (u : UserId) (attrs : Attrs) (p : Int)
    (hfind : Store.getById store pid = some product)
    (hu : u ≠ product.created_by)
    (hferr : ProductSerializer.fieldErrors (some product) store attrs = [])
    (hprice : attrs.price = some p) :
    fbv_product_detail store (some u) (.put attrs) pid =
      ⟨.response ⟨400, .invalid .permissionDenied⟩, store⟩ ∧
    fbv_product_detail store (some u) .delete pid =
      ⟨.response ⟨403, .detailPermissionDenied⟩, store⟩ ∧
    ∀ attrs2, (fbv_product_detail store (some u) (.put attrs2) pid).store = store := by
  refine ⟨nonowner_put_eq hfind hu hferr hprice, nonowner_delete_eq hfind hu,
    fun attrs2 => ?_⟩
  rcases fbv_put_store_cases store (some u) pid attrs2 with
    h | ⟨product2, p2, hfind2, -, -, hown, h⟩
  · exact h
  · rw [hfind] at hfind2
    injection hfind2 with he
    injection hown with ho
    rw [← he] at ho
    exact absurd ho.symm hu

theorem C2_nonowner_mutation_rejected_witness :
    fbv_product_detail [prodChair] (some 8) (.put attrsTable) 1 =
      ⟨.response ⟨400, .invalid .permissionDenied⟩, [prodChair]⟩ ∧
    fbv_product_detail [prodChair] (some 8) .delete 1 =
      ⟨.response ⟨403, .detailPermissionDenied⟩, [prodChair]⟩ ∧
    ∀ attrs2, (fbv_product_detail [prodChair] (some 8) (.put attrs2) 1).store =
      [prodChair] :=
  C2_nonowner_mutation_rejected [prodChair] 1 prodChair 8 attrsTable 60
    (by decide) (by decide) (by decide) (by decide)

/-- C3: the duplicate-name check consults every stored record without
excluding the record under update, so an owner's update keeping the
record's own current name is rejected with `DuplicateName`. -/
theorem C3_own_name_update_rejected (store : List Product) (pid : Nat)
    (product : Product) (attrs : Attrs) (p : Int)
    (hfind : Store.getById store pid = some product)
    (hname : attrs.name = product.name)
    (hprice : attrs.price = some p)
    (hferr : ProductSerializer.fieldErrors (some product) store attrs = []) :
    fbv_product_detail store (some product.created_by) (.put attrs) pid =
      ⟨.response ⟨400, .invalid .duplicateName⟩, store⟩ := by
  have hany := any_name_of_mem (mem_of_getById hfind) hname.symm
  rw [fbv_put_eq_match store product.created_by attrs pid product hfind,
    run_validation_nil hferr,
    validate_some_some product store attrs (some product.created_by) p hprice]
  simp [hany, GateResult.toRun]

theorem C3_own_name_update_rejected_witness :
    fbv_product_detail [prodChair] (some prodChair.created_by)
        (.put attrsChairKeepName) 1 =
      ⟨.response ⟨400, .invalid .duplicateName⟩, [prodChair]⟩ :=
  C3_own_name_update_rejected [prodChair] 1 prodChair attrsChairKeepName 60
    (by decide) (by decide) (by decide) (by decide)

/-- C4 counterexample: a `PUT` on an existing product by an
authenticated non-owner (price present, so the ownership check is
reached) answers 400, not 403: the gate raises the permission failure
as a `serializers.ValidationError`, which `is_valid` absorbs into the
ordinary 400 path. -/
theorem C4_counterexample :
    (fbv_product_detail [prodChair] (some 8) (.put attrsTable) 1).result.status? =
      some 400 ∧
    (fbv_product_detail [prodChair] (some 8) (.put attrsTable) 1).result.status? ≠
      some 403 := by decide

/-- C4 (amended): a non-owner `PUT` whose fields pass the serializer's
field-level validation and include a price yields status 400 — the same
status class as validation failures — carrying the permission-denied
detail (field-invalid bodies also yield 400, with field errors, before
the ownership check is reached); only the non-owner `DELETE` yields
403. -/
theorem C4_nonowner_put_is_400 (store : List Product) (pid : Nat)
    (product : Product) (u : UserId) (attrs : Attrs) (p : Int)
    (hfind : Store.getById store pid = some product)
    (hu : u ≠ product.created_by)
    (hferr : ProductSerializer.fieldErrors (some product) store attrs = [])
    (hprice : attrs.price = some p) :
    (fbv_product_detail store (some u) (.put attrs) pid).result.status? =
      some 400 ∧
    (fbv_product_detail store (some u) (.put attrs) pid).result.body? =
      some (.invalid .permissionDenied) ∧
    (fbv_product_detail store (some u) .delete pid).result.status? =
      some 403 := by
  rw [nonowner_put_eq hfind hu hferr hprice, nonowner_delete_eq hfind hu]
  exact ⟨rfl, rfl, rfl⟩

theorem C4_nonowner_put_is_400_witness :
    (fbv_product_detail [prodChair] (some 8) (.put attrsTable) 1).result.status? =
      some 400 ∧
    (fbv_product_detail [prodChair] (some 8) (.put attrsTable) 1).result.body? =
      some (.invalid .permissionDenied) ∧
    (fbv_product_detail [prodChair] (some 8) .delete 1).result.status? =
      some 403 :=
  C4_nonowner_put_is_400 [prodChair] 1 prodChair 8 attrsTable 60
    (by decide) (by decide) (by decide) (by decide)

/-- C10: an update by a record's owner whose proposed fields omit
`price` makes the gate crash with an unhandled `TypeError`
(`int(attrs.get('price'))` on `None`) instead of producing a structured
validation rejection; the store is unchanged. -/
theorem C10_missing_price_crashes (store : List Product) (pid : Nat)
    (product : Product) (attrs : Attrs)
    (hfind : Store.getById store pid = some product)
    (hprice : attrs.price = none)
    (hferr : ProductSerializer.fieldErrors (some product) store attrs = []) :
    fbv_product_detail store (some product.created_by) (.put attrs) pid =
      ⟨.crash .typeErrorIntOfNone, store⟩ := by
  rw [fbv_put_eq_match store product.created_by attrs pid product hfind,
    run_validation_nil hferr,
    validate_some_noprice product store attrs (some product.created_by) hprice]
  rfl

theorem C10_missing_price_crashes_witness :
    fbv_product_detail [prodChair] (some prodChair.created_by)
        (.put attrsTableNoPrice) 1 =
      ⟨.crash .typeErrorIntOfNone, [prodChair]⟩ :=
  C10_missing_price_crashes [prodChair] 1 prodChair attrsTableNoPrice
    (by decide) (by decide) (by decide)

theorem owner_put_fbv_eq {store : List Product} {pid : Nat} {product : Product}
    {attrs : Attrs} {p : Int}
    (hfind : Store.getById store pid = some product)
    (hprice : attrs.price = some p)
    (hferr : ProductSerializer.fieldErrors (some product) store attrs = [])
    (hfresh : store.any (fun q => q.name = attrs.name) = false) :
    fbv_product_detail store (some product.created_by) (.put attrs) pid =
      ⟨.response ⟨202, .record (ProductSerializer.applyUpdate product attrs)⟩,
        Store.saveUpdated store (ProductSerializer.applyUpdate product attrs)⟩ := by
  have hp0 : 0 ≤ p := fieldErrors_nil_price hferr hprice
  rw [fbv_put_eq_match store product.created_by attrs pid product hfind,
    run_validation_nil hferr,
    validate_some_some product store attrs (some product.created_by) p hprice]
  simp [hfresh, not_lt.mpr hp0, GateResult.toRun]

theorem owner_put_mixin_eq {store : List Product} {pid : Nat} {product : Product}
    {attrs : Attrs} {p : Int}
    (hfind : Store.getById store pid = some product)
    (hprice : attrs.price = some p)
    (hferr : ProductSerializer.fieldErrors (some product) store attrs = [])
    (hfresh : store.any (fun q => q.name = attrs.name) = false) :
    ProductDetailMixinView.handle store (some product.created_by) (.put attrs) pid =
      ⟨.response ⟨200, .record (ProductSerializer.applyUpdate product attrs)⟩,
        Store.saveUpdated store (ProductSerializer.applyUpdate product attrs)⟩ := by
  have hp0 : 0 ≤ p := fieldErrors_nil_price hferr hprice
  rw [mixin_put_eq_match store product.created_by attrs pid product hfind,
    run_validation_nil hferr,
    validate_some_some product store attrs (some product.created_by) p hprice]
  simp [hfresh, not_lt.mpr hp0, GateResult.toRun]

theorem apiview_detail_eq_fbv (s : List Product) (u : Option UserId)
    (m : DetailMethod) (pid : Nat) :
    ProductDetailAPIView.handle s u m pid = fbv_product_detail s u m pid := rfl

theorem generic_detail_eq_mixin (s : List Product) (u : Option UserId)
    (m : DetailMethod) (pid : Nat) :
    ProductDetailGenericView.handle s u m pid = ProductDetailMixinView.handle s u m pid := rfl

/-- C7 counterexample: an owner `PUT` with fields that pass validation
answers 200 — not 202 — in the generic-view implementation
(`UpdateModelMixin.update` returns `Response(serializer.data)` with the
default status), refuting the claim for the styles it names. -/
theorem C7_counterexample :
    (ProductDetailGenericView.handle [prodChair] (some 7) (.put attrsTable) 1).result.status? =
      some 200 ∧
    (ProductDetailGenericView.handle [prodChair] (some 7) (.put attrsTable) 1).result.status? ≠
      some 202 := by decide

/-- C7 (amended): an owner `PUT` with fields that pass validation —
they clear the serializer's field layer (non-blank name of at most 50
characters, price within the `PositiveIntegerField` range) and carry a
price, and the proposed name is on no stored record, so the gate's
whole-table duplicate check passes too — returns the updated record,
with status 202 in the function-based and `APIView` styles but status
200 in the mixin and generic styles; all four persist the same updated
store. -/
theorem C7_owner_put_success (store : List Product) (pid : Nat)
    (product : Product) (attrs : Attrs) (p : Int)
    (hfind : Store.getById store pid = some product)
    (hprice : attrs.price = some p)
    (hferr : ProductSerializer.fieldErrors (some product) store attrs = [])
    (hfresh : store.any (fun q => q.name = attrs.name) = false) :
    fbv_product_detail store (some product.created_by) (.put attrs) pid =
      ⟨.response ⟨202, .record (ProductSerializer.applyUpdate product attrs)⟩,
        Store.saveUpdated store (ProductSerializer.applyUpdate product attrs)⟩ ∧
    ProductDetailAPIView.handle store (some product.created_by) (.put attrs) pid =
      ⟨.response ⟨202, .record (ProductSerializer.applyUpdate product attrs)⟩,
        Store.saveUpdated store (ProductSerializer.applyUpdate product attrs)⟩ ∧
    ProductDetailMixinView.handle store (some product.created_by) (.put attrs) pid =
      ⟨.response ⟨200, .record (ProductSerializer.applyUpdate product attrs)⟩,
        Store.saveUpdated store (ProductSerializer.applyUpdate product attrs)⟩ ∧
    ProductDetailGenericView.handle store (some product.created_by) (.put attrs) pid =
      ⟨.response ⟨200, .record (ProductSerializer.applyUpdate product attrs)⟩,
        Store.saveUpdated store (ProductSerializer.applyUpdate product attrs)⟩ :=
  ⟨owner_put_fbv_eq hfind hprice hferr hfresh,
   (apiview_detail_eq_fbv ..).trans (owner_put_fbv_eq hfind hprice hferr hfresh),
   owner_put_mixin_eq hfind hprice hferr hfresh,
   (generic_detail_eq_mixin ..).trans (owner_put_mixin_eq hfind hprice hferr hfresh)⟩

theorem C7_owner_put_success_witness :
    fbv_product_detail [prodChair] (some 7) (.put attrsTable) 1 =
      ⟨.response ⟨202, .record (ProductSerializer.applyUpdate prodChair attrsTable)⟩,
        Store.saveUpdated [prodChair] (ProductSerializer.applyUpdate prodChair attrsTable)⟩ ∧
    ProductDetailAPIView.handle [prodChair] (some 7) (.put attrsTable) 1 =
      ⟨.response ⟨202, .record (ProductSerializer.applyUpdate prodChair attrsTable)⟩,
        Store.saveUpdated [prodChair] (ProductSerializer.applyUpdate prodChair attrsTable)⟩ ∧
    ProductDetailMixinView.handle [prodChair] (some 7) (.put attrsTable) 1 =
      ⟨.response ⟨200, .record (ProductSerializer.applyUpdate prodChair attrsTable)⟩,
        Store.saveUpdated [prodChair] (ProductSerializer.applyUpdate prodChair attrsTable)⟩ ∧
    ProductDetailGenericView.handle [prodChair] (some 7) (.put attrsTable) 1 =
      ⟨.response ⟨200, .record (ProductSerializer.applyUpdate prodChair attrsTable)⟩,
        Store.saveUpdated [prodChair] (ProductSerializer.applyUpdate prodChair attrsTable)⟩ :=
  C7_owner_put_success [prodChair] 1 prodChair attrsTable 60
    (by decide) (by decide) (by decide) (by decide)

/-- C9: whenever an update goes through (the view answers 202 with an
updated record), the record's `id`, `created_at` and `created_by` are
those of the stored record it replaces — only `name`, `description` and
`price` can differ (`id`, `created_by`, `created_at` are read-only
serializer fields, outside the validated data) — and the store change is
exactly the replacement of that row. -/
theorem C9_update_frame (store : List Product) (user : Option UserId)
    (pid : Nat) (product : Product) (attrs : Attrs) (updated : Product)
    (store2 : List Product)
    (hfind : Store.getById store pid = some product)
    (hrun : fbv_product_detail store user (.put attrs) pid =
      ⟨.response ⟨202, .record updated⟩, store2⟩) :
    updated.id = product.id ∧ updated.created_at = product.created_at ∧
    updated.created_by = product.created_by ∧
    store2 = Store.saveUpdated store updated := by
  cases user with
  | none =>
    exact absurd hrun (by simp [fbv_product_detail, DetailMethod.requiresAuth])
  | some u =>
    rw [fbv_put_eq_match store u attrs pid product hfind] at hrun
    cases hv : ProductSerializer.run_validation (some product) store attrs (some u) with
    | accepted a =>
      rw [hv] at hrun
      simp only [ViewResult.mk.injEq, HttpResult.response.injEq, Response.mk.injEq,
        Body.record.injEq, true_and] at hrun
      obtain ⟨hupd, hstore⟩ := hrun
      subst hupd
      exact ⟨rfl, rfl, rfl, hstore.symm⟩
    | fieldInvalid errs =>
      rw [hv] at hrun
      exact absurd hrun (by simp)
    | invalid r =>
      rw [hv] at hrun
      exact absurd hrun (by simp)
    | crash c =>
      rw [hv] at hrun
      exact absurd hrun (by simp)

theorem C9_update_frame_witness :
    (ProductSerializer.applyUpdate prodChair attrsTable).id = prodChair.id ∧
    (ProductSerializer.applyUpdate prodChair attrsTable).created_at = prodChair.created_at ∧
    (ProductSerializer.applyUpdate prodChair attrsTable).created_by = prodChair.created_by ∧
    Store.saveUpdated [prodChair] (ProductSerializer.applyUpdate prodChair attrsTable) =
      Store.saveUpdated [prodChair] (ProductSerializer.applyUpdate prodChair attrsTable) :=
  C9_update_frame [prodChair] (some 7) 1 prodChair attrsTable
    (ProductSerializer.applyUpdate prodChair attrsTable)
    (Store.saveUpdated [prodChair] (ProductSerializer.applyUpdate prodChair attrsTable))
    (by decide) (by decide)

theorem get_page_size_const (requested : Option Nat) :
    ProductsPagination.get_page_size requested = 10 := by
  cases requested <;> rfl

/-- C6 counterexample: a caller cannot request up to 100 records per
page.  `page_size_query_param` is left at its `None` default, so the
requested size is ignored: with 15 stored records and a requested page
size of 100, page 1 still carries only 10 results. -/
theorem C6_counterexample :
    ProductsPagination.get_page_size (some 100) = 10 ∧
    (fbv_products store15 none (.list 1 (some 100)) 0).result =
      .response ⟨200, .page (store15.take 10) 15 true false⟩ ∧
    (store15.take 10).length = 10 ∧ store15.length = 15 := by decide

/-- C6 (amended): the list pages at a fixed 10 records per page — the
`max_page_size = 100` attribute is inert because no page-size query
parameter is configured, so a caller cannot request a different size —
and with 15 stored records page 1 holds exactly the first 10 entries
with a next-page indicator while page 2 holds the remaining 5 without
one. -/
theorem C6_pagination (items : List Product) (requested : Option Nat)
    (h15 : items.length = 15) :
    ProductsPagination.get_page_size requested = 10 ∧
    fbv_products items none (.list 1 requested) 0 =
      ⟨.response ⟨200, .page (items.take 10) 15 true false⟩, items⟩ ∧
    (items.take 10).length = 10 ∧
    fbv_products items none (.list 2 requested) 0 =
      ⟨.response ⟨200, .page (items.drop 10) 15 false true⟩, items⟩ ∧
    (items.drop 10).length = 5 := by
  have hdroplen : (items.drop 10).length = 5 := by
    rw [List.length_drop, h15]
  have hpag1 : ProductsPagination.paginate items 1 requested =
      some (.page (items.take 10) 15 true false) := by
    unfold ProductsPagination.paginate ProductsPagination.num_pages
    rw [get_page_size_const, h15]
    norm_num
  have hpag2 : ProductsPagination.paginate items 2 requested =
      some (.page (items.drop 10) 15 false true) := by
    unfold ProductsPagination.paginate ProductsPagination.num_pages
    rw [get_page_size_const, h15]
    norm_num
    omega
  refine ⟨get_page_size_const requested, ?_, ?_, ?_, hdroplen⟩
  · simp [fbv_products, CollectionMethod.requiresAuth, hpag1]
  · rw [List.length_take, h15]
    norm_num
  · simp [fbv_products, CollectionMethod.requiresAuth, hpag2]

theorem C6_pagination_witness :
    ProductsPagination.get_page_size (some 100) = 10 ∧
    fbv_products store15 none (.list 1 (some 100)) 0 =
      ⟨.response ⟨200, .page (store15.take 10) 15 true false⟩, store15⟩ ∧
    (store15.take 10).length = 10 ∧
    fbv_products store15 none (.list 2 (some 100)) 0 =
      ⟨.response ⟨200, .page (store15.drop 10) 15 false true⟩, store15⟩ ∧
    (store15.drop 10).length = 5 :=
  C6_pagination store15 (some 100) (by decide)


theorem fbv_products_store_unchanged (s : List Product) (u : Option UserId)
    (m : CollectionMethod) (now : Nat) :
    (fbv_products s u m now).store = s := by
  unfold fbv_products
  split
  · rfl
  · cases m with
    | list page req =>
      cases hp : ProductsPagination.paginate s page req <;> simp [hp]
    | post attrs =>
      cases hrv : ProductSerializer.run_validation none s attrs u with
      | accepted a =>
        obtain ⟨-, hva⟩ := run_accepted_inv hrv
        exact absurd hva (by simp [ProductSerializer.validate])
      | fieldInvalid errs => simp [hrv]
      | invalid r => simp [hrv]
      | crash c => simp [hrv]


theorem neg_price_put_no_write (store : List Product) (user : Option UserId)
    (pid : Nat) (attrs : Attrs) (p : Int)
    (hprice : attrs.price = some p) (hneg : p < 0) :
    (fbv_product_detail store user (.put attrs) pid).store = store ∧
    ((fbv_product_detail store user (.put attrs) pid).result.status? = some 400 ∨
     (fbv_product_detail store user (.put attrs) pid).result.status? = some 401 ∨
     (fbv_product_detail store user (.put attrs) pid).result.status? = some 404) := by
  cases user with
  | none =>
    have h : fbv_product_detail store none (.put attrs) pid =
        ⟨.response ⟨401, .detailUnauthenticated⟩, store⟩ := by
      unfold fbv_product_detail
      simp [DetailMethod.requiresAuth]
    rw [h]
    exact ⟨rfl, .inr (.inl rfl)⟩
  | some u =>
    cases hfind : Store.getById store pid with
    | none =>
      have h : fbv_product_detail store (some u) (.put attrs) pid =
          ⟨.response ⟨404, .detailNotFound⟩, store⟩ := by
        unfold fbv_product_detail
        simp [DetailMethod.requiresAuth, hfind]
      rw [h]
      exact ⟨rfl, .inr (.inr rfl)⟩
    | some product =>
      rw [fbv_put_eq_match store u attrs pid product hfind]
      have hmem := priceMinValue_mem (some product) store hprice hneg
      have hrv := run_validation_err (some u) (List.ne_nil_of_mem hmem)
      rw [hrv]
      exact ⟨rfl, .inl rfl⟩

theorem fbv_detail_price_invariant (store : List Product) (user : Option UserId)
    (m : DetailMethod) (pid : Nat) (hstore : ∀ q ∈ store, 0 ≤ q.price) :
    ∀ q ∈ (fbv_product_detail store user m pid).store, 0 ≤ q.price := by
  cases m with
  | get =>
    cases user with
    | none =>
      cases hfind : Store.getById store pid with
      | none =>
        have h : (fbv_product_detail store none .get pid).store = store := by
          unfold fbv_product_detail
          simp [DetailMethod.requiresAuth, hfind]
        rw [h]; exact hstore
      | some product =>
        rw [fbv_get_eq store none pid product hfind]; exact hstore
    | some u =>
      cases hfind : Store.getById store pid with
      | none => rw [fbv_notfound_eq store u _ pid hfind]; exact hstore
      | some product =>
        rw [fbv_get_eq store (some u) pid product hfind]; exact hstore
  | delete =>
    cases user with
    | none => rw [fbv_delete_unauth_eq]; exact hstore
    | some u =>
      cases hfind : Store.getById store pid with
      | none => rw [fbv_notfound_eq store u _ pid hfind]; exact hstore
      | some product =>
        rw [fbv_delete_eq_ite store u pid product hfind]
        by_cases hown : some product.created_by ≠ some u
        · rw [if_pos hown]; exact hstore
        · rw [if_neg hown]
          intro q hq
          exact hstore q (List.mem_filter.mp hq).1
  | put attrs =>
    rcases fbv_put_store_cases store user pid attrs with
      h | ⟨product, p, hfind, hp, hge, -, h⟩
    · rw [h]; exact hstore
    · rw [h]
      intro q hq
      rcases List.mem_map.mp hq with ⟨x, hx, hxq⟩
      by_cases hid : x.id = (ProductSerializer.applyUpdate product attrs).id
      · rw [if_pos hid] at hxq
        rw [← hxq]
        simpa [ProductSerializer.applyUpdate, hp] using hge
      · rw [if_neg hid] at hxq
        rw [← hxq]
        exact hstore x hx

/-- C8: every create or update attempt with a negative proposed price
is rejected and the store is unchanged.  The rejection is the
price-specific field error (`min_value=0`, DRF's mapping of the
`PositiveIntegerField` range) collected by `is_valid()` before the
custom gate runs — the spec's `InvalidPrice` — possibly alongside other
field errors; creates are rejected the same way (the gate's
`AttributeError` crash is never reached when the price is invalid).
Consequently `price >= 0` is preserved for every stored record across
all requests on both routes. -/
theorem C8_negative_price_rejected :
    (∀ store u attrs p now, attrs.price = some p → p < 0 →
      fbv_products store (some u) (.post attrs) now =
        ⟨.response ⟨400, .invalidFields (ProductSerializer.fieldErrors none store attrs)⟩,
          store⟩ ∧
      FieldError.priceMinValue ∈ ProductSerializer.fieldErrors none store attrs) ∧
    (∀ store u pid product attrs p, Store.getById store pid = some product →
      attrs.price = some p → p < 0 →
      fbv_product_detail store (some u) (.put attrs) pid =
        ⟨.response ⟨400,
            .invalidFields (ProductSerializer.fieldErrors (some product) store attrs)⟩,
          store⟩ ∧
      FieldError.priceMinValue ∈ ProductSerializer.fieldErrors (some product) store attrs) ∧
    (∀ store user pid attrs p, attrs.price = some p → p < 0 →
      (fbv_product_detail store user (.put attrs) pid).store = store ∧
      ((fbv_product_detail store user (.put attrs) pid).result.status? = some 400 ∨
       (fbv_product_detail store user (.put attrs) pid).result.status? = some 401 ∨
       (fbv_product_detail store user (.put attrs) pid).result.status? = some 404)) ∧
    (∀ store user m now, (fbv_products store user m now).store = store) ∧
    (∀ store user m pid, (∀ q ∈ store, 0 ≤ q.price) →
      ∀ q ∈ (fbv_product_detail store user m pid).store, 0 ≤ q.price) := by
  refine ⟨?_, ?_, neg_price_put_no_write, fbv_products_store_unchanged,
    fbv_detail_price_invariant⟩
  · intro store u attrs p now hprice hneg
    have hmem := priceMinValue_mem (none : Option Product) store hprice hneg
    have hrv := run_validation_err (some u) (List.ne_nil_of_mem hmem)
    constructor
    · unfold fbv_products
      simp [CollectionMethod.requiresAuth, hrv]
    · exact hmem
  · intro store u pid product attrs p hfind hprice hneg
    have hmem := priceMinValue_mem (some product) store hprice hneg
    have hrv := run_validation_err (some u) (List.ne_nil_of_mem hmem)
    constructor
    · rw [fbv_put_eq_match store u attrs pid product hfind, hrv]
    · exact hmem

theorem C8_negative_price_rejected_witness :
    (fbv_products [] (some 1) (.post attrsNegPrice) 0 =
      ⟨.response ⟨400, .invalidFields (ProductSerializer.fieldErrors none [] attrsNegPrice)⟩,
        []⟩ ∧
     FieldError.priceMinValue ∈ ProductSerializer.fieldErrors none [] attrsNegPrice) ∧
    (fbv_product_detail [prodChair] (some 8) (.put attrsNegPrice) 1 =
      ⟨.response ⟨400,
          .invalidFields (ProductSerializer.fieldErrors (some prodChair) [prodChair] attrsNegPrice)⟩,
        [prodChair]⟩ ∧
     FieldError.priceMinValue ∈
       ProductSerializer.fieldErrors (some prodChair) [prodChair] attrsNegPrice) :=
  ⟨C8_negative_price_rejected.1 [] 1 attrsNegPrice (-5) 0 (by decide) (by decide),
   C8_negative_price_rejected.2.1 [prodChair] 8 1 prodChair attrsNegPrice (-5)
     (by decide) (by decide) (by decide)⟩

theorem mixin_eq_demote (s : List Product) (u : Option UserId)
    (m : DetailMethod) (pid : Nat) :
    ProductDetailMixinView.handle s u m pid =
      demoteAccepted (fbv_product_detail s u m pid) := by
  unfold ProductDetailMixinView.handle fbv_product_detail
  cases m with
  | get =>
    cases hfind : Store.getById s pid <;>
      simp [DetailMethod.requiresAuth, demoteAccepted, hfind]
  | delete =>
    cases u with
    | none => simp [DetailMethod.requiresAuth, demoteAccepted]
    | some uu =>
      cases hfind : Store.getById s pid with
      | none => simp [DetailMethod.requiresAuth, demoteAccepted, hfind]
      | some product =>
        simp only [DetailMethod.requiresAuth, hfind]
        split
        · simp [demoteAccepted]
        · split <;> simp [demoteAccepted]
  | put attrs =>
    cases u with
    | none => simp [DetailMethod.requiresAuth, demoteAccepted]
    | some uu =>
      cases hfind : Store.getById s pid with
      | none => simp [DetailMethod.requiresAuth, demoteAccepted, hfind]
      | some product =>
        cases hv : ProductSerializer.run_validation (some product) s attrs (some uu) <;>
          simp [DetailMethod.requiresAuth, demoteAccepted, hfind, hv]

theorem demote_store_body (v : ViewResult) :
    (demoteAccepted v).store = v.store ∧
    (demoteAccepted v).result.body? = v.result.body? := by
  rcases v with ⟨r, s⟩
  cases r with
  | response rr =>
    constructor
    · rfl
    · simp only [demoteAccepted, HttpResult.body?]
      split <;> rfl
  | crash c => exact ⟨rfl, rfl⟩

/-- C5 counterexample: the four view styles are not behaviourally
equivalent.  On an owner `PUT` with valid fields the function-based view
answers 202 while the generic view answers 200, so the two results
differ. -/
theorem C5_counterexample :
    fbv_product_detail [prodChair] (some 7) (.put attrsTable) 1 ≠
      ProductDetailGenericView.handle [prodChair] (some 7) (.put attrsTable) 1 := by
  decide

/-- C5 (amended): the `APIView` style coincides with the function-based
style on every request, the generic style coincides with the mixin
style, and all four collection views coincide; on the item route the
mixin/generic pair agrees with the function-based pair on the resulting
store and on every response body, differing only by mapping the 202 of
a successful `PUT` to 200 (`demoteAccepted`), which never touches body
or store. -/
theorem C5_view_equivalence :
    (∀ s u m pid, ProductDetailAPIView.handle s u m pid = fbv_product_detail s u m pid) ∧
    (∀ s u m pid, ProductDetailGenericView.handle s u m pid =
      ProductDetailMixinView.handle s u m pid) ∧
    (∀ s u m now, ProductsAPIView.handle s u m now = fbv_products s u m now) ∧
    (∀ s u m now, ProductsMixinView.handle s u m now = fbv_products s u m now) ∧
    (∀ s u m now, ProductsGenericView.handle s u m now = fbv_products s u m now) ∧
    (∀ s u m pid, ProductDetailMixinView.handle s u m pid =
      demoteAccepted (fbv_product_detail s u m pid)) ∧
    (∀ v, (demoteAccepted v).store = v.store ∧
      (demoteAccepted v).result.body? = v.result.body?) :=
  ⟨fun _ _ _ _ => rfl, fun _ _ _ _ => rfl, fun _ _ _ _ => rfl, fun _ _ _ _ => rfl,
   fun _ _ _ _ => rfl, mixin_eq_demote, demote_store_body⟩
